import Mathlib

/-!
Shallow embedding of the `mpris-native` crate (openspot-tui): the MPRIS
player controller (`controller.rs`), the spotifyd process supervisor
(`supervisor.rs`) and the shared data model (`types.rs`, `error.rs`).
External effects (D-Bus calls, the OS process table, signal delivery,
timers) are supplied as explicit oracle inputs; each operation returns its
result, the successor state, and a trace of the externally visible effects
it performed.
-/

set_option maxRecDepth 8000

namespace OpenSpot

/-! ## `types.rs` -/

inductive RepeatMode
  | none
  | playlist
  | track
deriving DecidableEq, Repr

structure TrackInfo where
  title : String
  artist : String
  album : String
  art_url : Option String
  uri : String
deriving DecidableEq, Repr

/-- `PlaybackState` from `types.rs`; `volume` is an `f64` in the source that
is only ever stored and compared, never arithmetically combined, so it is
embedded as a rational. -/
structure PlaybackState where
  is_playing : Bool
  position_ms : Int
  duration_ms : Int
  volume : ℚ
  shuffle : Bool
  «repeat» : RepeatMode
  track : Option TrackInfo
deriving DecidableEq, Repr

/-- The `#[derive(Default)]` value of `PlaybackState`: all-zero fields. -/
def PlaybackState.zero : PlaybackState :=
  { is_playing := false
    position_ms := 0
    duration_ms := 0
    volume := 0
    shuffle := false
    «repeat» := RepeatMode.none
    track := Option.none }

structure SpotifydStatus where
  running : Bool
  pid : Option Nat
  authenticated : Bool
deriving DecidableEq, Repr

/-- The `#[derive(Default)]` value of `SpotifydStatus`. -/
def SpotifydStatus.zero : SpotifydStatus :=
  { running := false, pid := Option.none, authenticated := false }

structure SpotifydStartResult where
  success : Bool
  message : String
  pid : Option Nat
  adopted : Bool
deriving DecidableEq, Repr

/-! ## `error.rs` -/

inductive MprisError
  | connectionFailed
  | fdoError
  | playerNotFound
  | timeout
  | spotifydNotRunning
  | notConnected
  | io
  | metadataParse (msg : String)
  | processSpawn (msg : String)
  | registrationTimeout
deriving DecidableEq, Repr

/-- The `thiserror` display strings (payload-free variants abbreviated). -/
def MprisError.display : MprisError → String
  | .connectionFailed => "D-Bus connection failed"
  | .fdoError => "D-Bus FDO error"
  | .playerNotFound => "Player not found"
  | .timeout => "Command timeout"
  | .spotifydNotRunning => "spotifyd not running"
  | .notConnected => "Not connected to MPRIS"
  | .io => "IO error"
  | .metadataParse m => "Failed to parse metadata: " ++ m
  | .processSpawn m => "Process spawn failed: " ++ m
  | .registrationTimeout => "D-Bus registration timeout"

/-! ## Bus names

Rust `str::starts_with`, embedded over the character list of a `String` so
that it evaluates inside the kernel. -/

def str_starts_with (s p : String) : Bool :=
  p.data.isPrefixOf s.data

/-- The well-known name prefix of the supervised daemon, used by every
supervisor-side bus check (`find_spotifyd_via_dbus`,
`check_dbus_responsive`, `wait_for_dbus_registration`). -/
def spotifydWellKnown : String := "org.mpris.MediaPlayer2.spotifyd"

/-- The second prefix accepted by the controller's `discover_player`. -/
def spotifyWellKnown : String := "org.mpris.MediaPlayer2.spotify"

/-! ## `controller.rs`: metadata parsing -/

/-- D-Bus variant values as far as `parse_metadata` inspects them:
`downcast_ref::<Str>` succeeds only on `str`, `downcast_ref::<Array>` only
on `arr`, `downcast_ref::<i64>` only on `int64`, and
`downcast_ref::<ObjectPath>` only on `objpath`. -/
inductive MetaValue
  | str (s : String)
  | arr (items : List MetaValue)
  | int64 (n : Int)
  | objpath (p : String)
deriving Repr

/-- The metadata `HashMap<String, OwnedValue>`, as an association list. -/
abbrev Metadata := List (String × MetaValue)

def MetaValue.asStr : MetaValue → Option String
  | .str s => some s
  | _ => none

def MetaValue.asArr : MetaValue → Option (List MetaValue)
  | .arr l => some l
  | _ => none

def MetaValue.asInt64 : MetaValue → Option Int
  | .int64 n => some n
  | _ => none

def MetaValue.asObjPath : MetaValue → Option String
  | .objpath p => some p
  | _ => none

/-- `ControllerInner::parse_metadata`: title required (the leading `?`),
artist is the first element of the `xesam:artist` array (default empty),
album default empty, art URL optional, track id default empty. -/
def parse_metadata (metadata : Metadata) : Option TrackInfo :=
  ((metadata.lookup "xesam:title").bind MetaValue.asStr).map fun title =>
    let artist :=
      (((metadata.lookup "xesam:artist").bind MetaValue.asArr).bind fun arr =>
        arr.head?.bind MetaValue.asStr).getD ""
    let album := ((metadata.lookup "xesam:album").bind MetaValue.asStr).getD ""
    let art_url := (metadata.lookup "mpris:artUrl").bind MetaValue.asStr
    let uri := ((metadata.lookup "mpris:trackid").bind MetaValue.asObjPath).getD ""
    { title := title, artist := artist, album := album
      art_url := art_url, uri := uri }

/-- `ControllerInner::extract_duration`: the `mpris:length` attribute as an
`i64` (microseconds). -/
def extract_duration (metadata : Metadata) : Option Int :=
  (metadata.lookup "mpris:length").bind MetaValue.asInt64

/-! ## `controller.rs`: state refresh and commands -/

/-- The six property reads performed by `refresh_state`; `none` models an
individual read failure (`Err` from the proxy call). -/
structure PlayerReads where
  playback_status : Option String
  metadata : Option Metadata
  volume : Option ℚ
  shuffle : Option Bool
  loop_status : Option String
  position : Option Int

/-- The snapshot built by `ControllerInner::refresh_state` from the six
property reads: `unwrap_or_default` / `unwrap_or(1.0)` / `unwrap_or(false)`
/ `unwrap_or(0)` substitutions, microsecond-to-millisecond truncating
division, loop-status decoding and metadata parsing. -/
def refresh_state (r : PlayerReads) : PlaybackState :=
  let status := r.playback_status.getD ""
  let metadata := r.metadata.getD []
  let volume := r.volume.getD 1
  let shuffle := r.shuffle.getD false
  let loop_status := r.loop_status.getD ""
  let position := r.position.getD 0
  let is_playing := status == "Playing"
  let rep : RepeatMode :=
    if loop_status == "Playlist" then RepeatMode.playlist
    else if loop_status == "Track" then RepeatMode.track
    else RepeatMode.none
  let track := parse_metadata metadata
  let duration_ms := (extract_duration metadata).getD 0
  { is_playing := is_playing
    position_ms := position.tdiv 1000
    duration_ms := duration_ms.tdiv 1000
    volume := volume
    shuffle := shuffle
    «repeat» := rep
    track := track }

/-- `ControllerInner::discover_player`: first registered bus name matching
either accepted prefix; `PlayerNotFound` when none matches. -/
def discover_player (names : List String) : Except MprisError String :=
  match names.find? (fun n =>
      str_starts_with n spotifydWellKnown || str_starts_with n spotifyWellKnown) with
  | some n => Except.ok n
  | none => Except.error MprisError.playerNotFound

/-- Controller state: whether a player proxy is bound (`player: Some`), the
cached snapshot behind the `RwLock`, and the ordered log of snapshots sent
on the broadcast channel (what a subscriber registered beforehand can
observe). -/
structure ControllerState where
  connected : Bool
  state : PlaybackState
  published : List PlaybackState
deriving Repr

/-- Write the cached snapshot and send it on the broadcast channel (the
`state.write()` + `state_tx.send(state.clone())` block of the commands). -/
def publishSnapshot (cs : ControllerState) (st : PlaybackState) : ControllerState :=
  { cs with state := st, published := cs.published ++ [st] }

namespace ControllerInner

/-- `play_pause`: requires connection, issues `PlayPause`, re-reads
`PlaybackStatus` after a settle delay (`statusAfter`, `none` = read
failure), updates `is_playing` in the cache and broadcasts. -/
def play_pause (cs : ControllerState) (callOk : Bool) (statusAfter : Option String) :
    Except MprisError Bool × ControllerState :=
  if !cs.connected then (Except.error MprisError.notConnected, cs)
  else if !callOk then (Except.error MprisError.connectionFailed, cs)
  else
    match statusAfter with
    | none => (Except.error MprisError.connectionFailed, cs)
    | some status =>
      let is_playing := status == "Playing"
      (Except.ok is_playing,
        publishSnapshot cs { cs.state with is_playing := is_playing })

/-- `next`: requires connection, issues `Next`; no cache update, no
broadcast. -/
def next (cs : ControllerState) (callOk : Bool) :
    Except MprisError Unit × ControllerState :=
  if !cs.connected then (Except.error MprisError.notConnected, cs)
  else if !callOk then (Except.error MprisError.connectionFailed, cs)
  else (Except.ok (), cs)

/-- `previous`: requires connection, issues `Previous`; no cache update, no
broadcast. -/
def previous (cs : ControllerState) (callOk : Bool) :
    Except MprisError Unit × ControllerState :=
  if !cs.connected then (Except.error MprisError.notConnected, cs)
  else if !callOk then (Except.error MprisError.connectionFailed, cs)
  else (Except.ok (), cs)

/-- `seek`: requires connection, issues `Seek` with the millisecond offset
converted to microseconds (third component: the offset put on the wire);
no cache update, no broadcast. -/
def seek (cs : ControllerState) (offset_ms : Int) (callOk : Bool) :
    (Except MprisError Unit × ControllerState) × Option Int :=
  if !cs.connected then ((Except.error MprisError.notConnected, cs), none)
  else if !callOk then
    ((Except.error MprisError.connectionFailed, cs), some (offset_ms * 1000))
  else ((Except.ok (), cs), some (offset_ms * 1000))

/-- `set_volume`: requires connection, issues the property write,
optimistically stores the requested volume and broadcasts. -/
def set_volume (cs : ControllerState) (volume : ℚ) (callOk : Bool) :
    Except MprisError Unit × ControllerState :=
  if !cs.connected then (Except.error MprisError.notConnected, cs)
  else if !callOk then (Except.error MprisError.connectionFailed, cs)
  else (Except.ok (), publishSnapshot cs { cs.state with volume := volume })

/-- `set_shuffle`: requires connection, issues the property write,
optimistically stores the requested flag and broadcasts. -/
def set_shuffle (cs : ControllerState) (shuffle : Bool) (callOk : Bool) :
    Except MprisError Unit × ControllerState :=
  if !cs.connected then (Except.error MprisError.notConnected, cs)
  else if !callOk then (Except.error MprisError.connectionFailed, cs)
  else (Except.ok (), publishSnapshot cs { cs.state with shuffle := shuffle })

/-- The `LoopStatus` string written by `set_repeat`. -/
def loopStatusOf : RepeatMode → String
  | RepeatMode.none => "None"
  | RepeatMode.playlist => "Playlist"
  | RepeatMode.track => "Track"

/-- `set_repeat`: requires connection, writes the mapped `LoopStatus`
string, optimistically stores the requested mode and broadcasts. -/
def set_repeat (cs : ControllerState) (rm : RepeatMode) (callOk : Bool) :
    Except MprisError Unit × ControllerState :=
  if !cs.connected then (Except.error MprisError.notConnected, cs)
  else if !callOk then (Except.error MprisError.connectionFailed, cs)
  else (Except.ok (), publishSnapshot cs { cs.state with «repeat» := rm })

end ControllerInner

/-! ## `supervisor.rs`: bus discovery helpers -/

/-- `SupervisorInner::check_dbus_responsive`: some registered name starts
with the daemon prefix. -/
def check_dbus_responsive (names : List String) : Bool :=
  names.any fun n => str_starts_with n spotifydWellKnown

/-- `SupervisorInner::find_spotifyd_via_dbus`: first name with the daemon
prefix whose owning pid can be resolved (`owner`); resolution failures are
skipped and the scan continues. -/
def find_spotifyd_via_dbus (names : List String) (owner : String → Option Nat) :
    Option Nat :=
  names.findSome? fun n =>
    if str_starts_with n spotifydWellKnown then owner n else none

/-! ## `supervisor.rs`: `kill_pid` -/

/-- Oracle for one `kill_pid` invocation: whether the `SIGTERM` and
`SIGKILL` syscalls succeed, and the `is_pid_alive` answer at each of the
successive liveness checks (indices `0..19` are the graceful polls, index
`20` the single re-check after `SIGKILL`). -/
structure KillEnv where
  sigtermOk : Bool
  sigkillOk : Bool
  aliveAt : Nat → Bool

/-- Externally visible events of a `kill_pid` run: signal deliveries and
timestamped liveness checks (milliseconds after `SIGTERM`). -/
inductive KEff
  | sigterm (pid : Nat)
  | sigkill (pid : Nat)
  | check (pid : Nat) (t : Nat) (alive : Bool)
deriving DecidableEq, Repr

/-- The graceful-shutdown wait loop of `kill_pid` (`for _ in 0..20 {
sleep(100ms); if !is_pid_alive(pid) return true }`): returns the index of
the first poll that found the process dead, with the trace of polls
performed (poll `k` happens at time `100*(k+1)` ms). -/
def gracePoll (pid : Nat) (aliveAt : Nat → Bool) : Nat → Nat → Option Nat × List KEff
  | _, 0 => (none, [])
  | k, fuel+1 =>
    let a := aliveAt k
    if a then
      let r := gracePoll pid aliveAt (k+1) fuel
      (r.1, KEff.check pid (100 * (k+1)) a :: r.2)
    else (some k, [KEff.check pid (100 * (k+1)) a])

/-- `kill_pid`: `SIGTERM`, then up to 20 polls at 100 ms; on full-window
survival `SIGKILL` and one re-check after a further 100 ms; `true` only
when a check confirmed the process gone. A failed `SIGTERM` syscall skips
the whole escalation and returns `false`. -/
def kill_pid (pid : Nat) (e : KillEnv) : Bool × List KEff :=
  if e.sigtermOk then
    let g := gracePoll pid e.aliveAt 0 20
    match g.1 with
    | some _ => (true, KEff.sigterm pid :: g.2)
    | none =>
      if e.sigkillOk then
        let a := e.aliveAt 20
        (!a, KEff.sigterm pid :: g.2 ++ [KEff.sigkill pid, KEff.check pid 2100 a])
      else (false, KEff.sigterm pid :: g.2 ++ [KEff.sigkill pid])
  else (false, [KEff.sigterm pid])

/-! ## `supervisor.rs`: supervisor state and operations -/

/-- `SupervisorInner`'s mutable state: the two tracked-identity fields, the
current value of the `watch` status channel and the ordered log of statuses
published on it. -/
structure SupState where
  spawned_child_pid : Option Nat
  adopted_pid : Option Nat
  status : SpotifydStatus
  statusLog : List SpotifydStatus
deriving DecidableEq, Repr

/-- `SupervisorInner::new`: no tracked pids, `watch` channel holding the
default status, nothing published yet. -/
def SupState.initial : SupState :=
  { spawned_child_pid := none, adopted_pid := none
    status := SpotifydStatus.zero, statusLog := [] }

/-- `status_tx.send(st)`: replace the latest value and record the publish. -/
def publishStatus (s : SupState) (st : SpotifydStatus) : SupState :=
  { s with status := st, statusLog := s.statusLog ++ [st] }

/-- `SupervisorInner::get_tracked_pid`: spawned pid first, else adopted. -/
def get_tracked_pid (s : SupState) : Option Nat :=
  match s.spawned_child_pid with
  | some pid => some pid
  | none => s.adopted_pid

/-- Externally visible supervisor effects: a double-fork spawn, and a
`kill_pid` invocation together with its (always discarded) result. -/
inductive SEff
  | spawned (pid : Nat)
  | killed (pid : Nat) (result : Bool)
  | regWait (ok : Bool)
deriving DecidableEq, Repr

/-- Oracle for `wait_for_dbus_registration`: whether the session connection
opens, and per attempt `none` for a D-Bus error (propagated as a timeout),
`some b` for a successful name listing that does (`true`) or does not
(`false`) contain the daemon prefix. -/
structure RegEnv where
  sessionOk : Bool
  attempt : Nat → Option Bool

/-- The `for attempt in 1..=30` loop of `wait_for_dbus_registration`. -/
def regLoop (f : Nat → Option Bool) : Nat → Nat → Except MprisError Nat
  | _, 0 => Except.error MprisError.registrationTimeout
  | k, fuel+1 =>
    match f k with
    | none => Except.error MprisError.registrationTimeout
    | some true => Except.ok k
    | some false => regLoop f (k+1) fuel

/-- `SupervisorInner::wait_for_dbus_registration`: bounded poll, 30
attempts at 100 ms; returns the attempt index that saw the registration. -/
def wait_for_dbus_registration (e : RegEnv) : Except MprisError Nat :=
  if e.sessionOk then regLoop e.attempt 1 30
  else Except.error MprisError.registrationTimeout

/-- Oracle for one supervisor operation. Liveness and responsiveness checks
at distinct program points get distinct fields because they happen at
distinct times. `killResult pid` is what `kill_pid` would return for `pid`
(the supervisor discards it everywhere). -/
structure SupEnv where
  trackedAlive : Bool
  trackedResponsive : Bool
  dbusFind : Option Nat
  pgrepFind : Option Nat
  foundAlive : Bool
  foundResponsive : Bool
  pgrepAll : List Nat
  pgrepAllAfter : List Nat
  killResult : Nat → Bool
  binaryPath : String
  binaryExists : Bool
  spawnResult : Except String Nat
  settleAlive : Bool
  reg : RegEnv

/-- `SupervisorInner::find_existing_spotifyd`: D-Bus discovery first (it
proves protocol responsiveness), pgrep fallback. -/
def find_existing_spotifyd (e : SupEnv) : Option Nat :=
  match e.dbusFind with
  | some pid => some pid
  | none => e.pgrepFind

namespace SupervisorInner

/-- `SupervisorInner::adopt`: clear the spawned field, record the adopted
pid, publish `running:true` with `authenticated:true`. -/
def adopt (pid : Nat) (s : SupState) : Except MprisError Unit × SupState :=
  let s1 := { s with spawned_child_pid := none, adopted_pid := some pid }
  (Except.ok (),
    publishStatus s1 { running := true, pid := some pid, authenticated := true })

/-- `SupervisorInner::start_fresh`: binary-existence gate, double-fork
spawn, tracked-pid recording, settle-delay liveness verification with
rollback, status publish, then the (outcome-ignored) registration wait. -/
def start_fresh (e : SupEnv) (s : SupState) :
    Except MprisError Nat × SupState × List SEff :=
  if !e.binaryExists && e.binaryPath != "spotifyd" then
    (Except.error (MprisError.processSpawn
      ("spotifyd binary not found at " ++ e.binaryPath)), s, [])
  else
    match e.spawnResult with
    | Except.error msg => (Except.error (MprisError.processSpawn msg), s, [])
    | Except.ok child_pid =>
      let s1 := { s with spawned_child_pid := some child_pid, adopted_pid := none }
      if !e.settleAlive then
        (Except.error (MprisError.processSpawn
          "spotifyd exited immediately after starting"),
         { s1 with spawned_child_pid := none }, [SEff.spawned child_pid])
      else
        let s2 := publishStatus s1
          { running := true, pid := some child_pid, authenticated := true }
        let regOk := (wait_for_dbus_registration e.reg).toBool
        (Except.ok child_pid, s2, [SEff.spawned child_pid, SEff.regWait regOk])

/-- The kill-all-then-spawn tail of `start_or_adopt`: `kill_all_spotifyd`
over the pgrep listing (results discarded), the paranoid re-scan with a
second kill round, then `start_fresh` with errors folded into a
`success:false` result. -/
def start_or_adopt_spawn (e : SupEnv) (s : SupState) :
    SpotifydStartResult × SupState × List SEff :=
  let killEffs := e.pgrepAll.map fun pid => SEff.killed pid (e.killResult pid)
  let killEffs2 := e.pgrepAllAfter.map fun pid => SEff.killed pid (e.killResult pid)
  let r := start_fresh e s
  match r.1 with
  | Except.ok pid =>
    ({ success := true, message := "Started fresh spotifyd instance"
       pid := some pid, adopted := false }, r.2.1, killEffs ++ killEffs2 ++ r.2.2)
  | Except.error err =>
    ({ success := false, message := "Failed to start spotifyd: " ++ err.display
       pid := none, adopted := false }, r.2.1, killEffs ++ killEffs2 ++ r.2.2)

/-- The discovery step of `start_or_adopt`: adopt a discovered healthy
instance, otherwise fall through to the kill-all-and-spawn tail. -/
def start_or_adopt_discover (e : SupEnv) (s : SupState) :
    SpotifydStartResult × SupState × List SEff :=
  match find_existing_spotifyd e with
  | some pid =>
    if e.foundAlive && e.foundResponsive then
      ({ success := true
         message := "Adopted existing spotifyd instance (instant start!)"
         pid := some pid, adopted := true }, (adopt pid s).2, [])
    else start_or_adopt_spawn e s
  | none => start_or_adopt_spawn e s

/-- `SupervisorInner::start_or_adopt` (under the `start_lock` mutex):
healthy-tracked fast path with no side effects, stale-tracked clearing,
then discovery/adoption or kill-all-and-spawn. -/
def start_or_adopt (e : SupEnv) (s : SupState) :
    SpotifydStartResult × SupState × List SEff :=
  match get_tracked_pid s with
  | some pid =>
    if e.trackedAlive && e.trackedResponsive then
      ({ success := true, message := "Spotifyd already running"
         pid := some pid, adopted := true }, s, [])
    else
      start_or_adopt_discover e
        { s with spawned_child_pid := none, adopted_pid := none }
  | none => start_or_adopt_discover e s

/-- `SupervisorInner::stop`: kill the tracked pid only when spawned-by-us
or forced; when untracked and forced, discover and kill a system-wide
instance; always clear both tracked fields and publish `running:false`;
always return `Ok(())` (kill results discarded). -/
def stop (force : Bool) (e : SupEnv) (s : SupState) :
    Except MprisError Unit × SupState × List SEff :=
  let effs :=
    match get_tracked_pid s with
    | some pid =>
      if force || s.spawned_child_pid.isSome then
        [SEff.killed pid (e.killResult pid)]
      else []
    | none =>
      if force then
        match find_existing_spotifyd e with
        | some pid => [SEff.killed pid (e.killResult pid)]
        | none => []
      else []
  let s1 := { s with spawned_child_pid := none, adopted_pid := none }
  let s2 := publishStatus s1 { running := false, pid := none, authenticated := false }
  (Except.ok (), s2, effs)

end SupervisorInner

/-! ## Reachable supervisor states -/

/-- One supervisor call, with the oracle inputs it consumed. -/
inductive SupOp
  | adoptOp (pid : Nat)
  | startFreshOp (e : SupEnv)
  | startOrAdoptOp (e : SupEnv)
  | stopOp (force : Bool) (e : SupEnv)

/-- The state transition of one supervisor call. -/
def SupOp.step : SupOp → SupState → SupState
  | .adoptOp pid, s => (SupervisorInner.adopt pid s).2
  | .startFreshOp e, s => (SupervisorInner.start_fresh e s).2.1
  | .startOrAdoptOp e, s => (SupervisorInner.start_or_adopt e s).2.1
  | .stopOp force e, s => (SupervisorInner.stop force e s).2.1

/-- Run a sequence of supervisor calls. -/
def runOps (ops : List SupOp) (s : SupState) : SupState :=
  ops.foldl (fun s op => op.step s) s

/-- The tracked-identity invariant: never both fields `Some`. -/
def trackedInvariant (s : SupState) : Prop :=
  s.spawned_child_pid = none ∨ s.adopted_pid = none

/-! ## Concrete fixtures used by the witnesses -/

def csConnected : ControllerState :=
  { connected := true, state := PlaybackState.zero, published := [] }

def csDisconnected : ControllerState :=
  { connected := false, state := PlaybackState.zero, published := [] }

def songMeta : Metadata :=
  [ ("xesam:title", MetaValue.str "Song A")
  , ("xesam:artist", MetaValue.arr [MetaValue.str "Artist B"])
  , ("mpris:length", MetaValue.int64 3000000) ]

def allReadsFail : PlayerReads :=
  { playback_status := none, metadata := none, volume := none
    shuffle := none, loop_status := none, position := none }

/-- A process that survives the whole graceful window and dies only at the
re-check after `SIGKILL`. -/
def killEnvEscalate : KillEnv :=
  { sigtermOk := true, sigkillOk := true, aliveAt := fun k => decide (k < 20) }

def baseEnv : SupEnv :=
  { trackedAlive := true, trackedResponsive := true
    dbusFind := none, pgrepFind := none
    foundAlive := false, foundResponsive := false
    pgrepAll := [], pgrepAllAfter := []
    killResult := fun _ => false
    binaryPath := "spotifyd", binaryExists := false
    spawnResult := Except.error "Fork failed", settleAlive := false
    reg := { sessionOk := false, attempt := fun _ => none } }

def envSpawn : SupEnv :=
  { baseEnv with
    binaryExists := true
    spawnResult := Except.ok 99
    settleAlive := true }

def regAlways : RegEnv := { sessionOk := true, attempt := fun _ => some true }

def ssAdopted : SupState :=
  { spawned_child_pid := none, adopted_pid := some 7
    status := SpotifydStatus.zero, statusLog := [] }

def ssEmpty : SupState :=
  { spawned_child_pid := none, adopted_pid := none
    status := SpotifydStatus.zero, statusLog := [] }

theorem trackedInvariant_publishStatus (s : SupState) (st : SpotifydStatus)
    (h : trackedInvariant s) : trackedInvariant (publishStatus s st) := by
  simpa [trackedInvariant, publishStatus] using h

theorem trackedInvariant_adopt (pid : Nat) (s : SupState) :
    trackedInvariant (SupervisorInner.adopt pid s).2 := by
  simp [trackedInvariant, SupervisorInner.adopt, publishStatus]

theorem trackedInvariant_start_fresh (e : SupEnv) (s : SupState)
    (h : trackedInvariant s) :
    trackedInvariant (SupervisorInner.start_fresh e s).2.1 := by
  unfold SupervisorInner.start_fresh
  split
  · exact h
  · split
    · exact h
    · split
      · simp [trackedInvariant]
      · simp [trackedInvariant, publishStatus]

theorem trackedInvariant_soa_spawn (e : SupEnv) (s : SupState)
    (h : trackedInvariant s) :
    trackedInvariant (SupervisorInner.start_or_adopt_spawn e s).2.1 := by
  have h1 := trackedInvariant_start_fresh e s h
  unfold SupervisorInner.start_or_adopt_spawn
  cases hr : (SupervisorInner.start_fresh e s).1 <;> simpa [hr] using h1

theorem trackedInvariant_soa_discover (e : SupEnv) (s : SupState)
    (h : trackedInvariant s) :
    trackedInvariant (SupervisorInner.start_or_adopt_discover e s).2.1 := by
  unfold SupervisorInner.start_or_adopt_discover
  split
  · split
    · simpa using trackedInvariant_adopt _ s
    · exact trackedInvariant_soa_spawn e s h
  · exact trackedInvariant_soa_spawn e s h

theorem trackedInvariant_start_or_adopt (e : SupEnv) (s : SupState)
    (h : trackedInvariant s) :
    trackedInvariant (SupervisorInner.start_or_adopt e s).2.1 := by
  unfold SupervisorInner.start_or_adopt
  split
  · split
    · exact h
    · exact trackedInvariant_soa_discover e _ (Or.inl rfl)
  · exact trackedInvariant_soa_discover e s h

theorem trackedInvariant_stop (force : Bool) (e : SupEnv) (s : SupState) :
    trackedInvariant (SupervisorInner.stop force e s).2.1 := by
  simp [trackedInvariant, SupervisorInner.stop, publishStatus]

theorem trackedInvariant_step (op : SupOp) (s : SupState)
    (h : trackedInvariant s) : trackedInvariant (op.step s) := by
  cases op with
  | adoptOp pid => exact trackedInvariant_adopt pid s
  | startFreshOp e => exact trackedInvariant_start_fresh e s h
  | startOrAdoptOp e => exact trackedInvariant_start_or_adopt e s h
  | stopOp force e => exact trackedInvariant_stop force e s

theorem trackedInvariant_runOps (ops : List SupOp) (s : SupState)
    (h : trackedInvariant s) : trackedInvariant (runOps ops s) := by
  induction ops generalizing s with
  | nil => exact h
  | cons op rest ih => exact ih _ (trackedInvariant_step op s h)

/-- C2: at every reachable supervisor state — after construction and after
any sequence of `adopt`, `start_fresh`, `start_or_adopt` and `stop`
calls — at most one of `spawned_child_pid` and `adopted_pid` is `Some`;
they are never both set. -/
theorem C2_tracked_identity_invariant (ops : List SupOp) :
    trackedInvariant (runOps ops SupState.initial) :=
  trackedInvariant_runOps ops SupState.initial (Or.inl rfl)

/-- C3: when a tracked pid exists and passes both the liveness check and
the bus-responsiveness check, `start_or_adopt` returns `success:true`,
`adopted:true` and that same pid, leaves the whole supervisor state
(tracked fields, published status) unchanged and performs no spawn or
kill; hence a repeated call in the same situation returns the identical
result. -/
theorem C3_start_or_adopt_fast_path (e : SupEnv) (s : SupState) (pid : Nat)
    (htrack : get_tracked_pid s = some pid)
    (halive : e.trackedAlive = true)
    (hresp : e.trackedResponsive = true) :
    SupervisorInner.start_or_adopt e s =
      ({ success := true, message := "Spotifyd already running"
         pid := some pid, adopted := true }, s, []) ∧
    ∀ e2 : SupEnv, e2.trackedAlive = true → e2.trackedResponsive = true →
      SupervisorInner.start_or_adopt e2 (SupervisorInner.start_or_adopt e s).2.1 =
        ({ success := true, message := "Spotifyd already running"
           pid := some pid, adopted := true }, s, []) := by
  have main : ∀ e' : SupEnv, e'.trackedAlive = true → e'.trackedResponsive = true →
      SupervisorInner.start_or_adopt e' s =
        ({ success := true, message := "Spotifyd already running"
           pid := some pid, adopted := true }, s, []) := by
    intro e' ha hr
    unfold SupervisorInner.start_or_adopt
    rw [htrack]
    simp [ha, hr]
  refine ⟨main e halive hresp, ?_⟩
  intro e2 ha2 hr2
  rw [main e halive hresp]
  exact main e2 ha2 hr2

theorem C3_witness :
    SupervisorInner.start_or_adopt baseEnv ssAdopted =
      ({ success := true, message := "Spotifyd already running"
         pid := some 7, adopted := true }, ssAdopted, []) :=
  (C3_start_or_adopt_fast_path baseEnv ssAdopted 7 rfl rfl rfl).1

/-- C5: `stop(force)` delivers no kill when the tracked process was adopted
and `force` is false; when untracked and forced it discovers and kills a
system-wide instance; and in every case it clears both tracked-pid fields
and publishes a `running:false` status. -/
theorem C5_stop_policy (force : Bool) (e : SupEnv) (s : SupState) :
    (∀ p : Nat, force = false → s.spawned_child_pid = none →
      s.adopted_pid = some p → (SupervisorInner.stop force e s).2.2 = []) ∧
    (∀ pid : Nat, get_tracked_pid s = none → force = true →
      find_existing_spotifyd e = some pid →
      (SupervisorInner.stop force e s).2.2 = [SEff.killed pid (e.killResult pid)]) ∧
    (SupervisorInner.stop force e s).2.1.spawned_child_pid = none ∧
    (SupervisorInner.stop force e s).2.1.adopted_pid = none ∧
    (SupervisorInner.stop force e s).2.1.status =
      { running := false, pid := none, authenticated := false } ∧
    (SupervisorInner.stop force e s).2.1.statusLog =
      s.statusLog ++ [{ running := false, pid := none, authenticated := false }] := by
  refine ⟨?_, ?_, ?_, ?_, ?_, ?_⟩
  · intro p hf hsp had
    simp [SupervisorInner.stop, get_tracked_pid, hf, hsp, had]
  · intro pid htr hf hfind
    simp [SupervisorInner.stop, htr, hf, hfind]
  · simp [SupervisorInner.stop, publishStatus]
  · simp [SupervisorInner.stop, publishStatus]
  · simp [SupervisorInner.stop, publishStatus]
  · simp [SupervisorInner.stop, publishStatus]

theorem C5_witness :
    (SupervisorInner.stop false baseEnv ssAdopted).2.2 = [] ∧
    (SupervisorInner.stop true { baseEnv with dbusFind := some 42 } ssEmpty).2.2 =
      [SEff.killed 42 false] ∧
    (SupervisorInner.stop false baseEnv ssAdopted).2.1.adopted_pid = none ∧
    (SupervisorInner.stop false baseEnv ssAdopted).2.1.status =
      { running := false, pid := none, authenticated := false } := by
  refine ⟨(C5_stop_policy false baseEnv ssAdopted).1 7 rfl rfl rfl,
    (C5_stop_policy true { baseEnv with dbusFind := some 42 } ssEmpty).2.1 42 rfl rfl rfl,
    (C5_stop_policy false baseEnv ssAdopted).2.2.2.1,
    (C5_stop_policy false baseEnv ssAdopted).2.2.2.2.1⟩

/-- C9: `stop` always returns `Ok(())`; the boolean result of the kill
routine is discarded, so the successor state (cleared tracked fields,
`running:false` published) and the return value are independent of whether
any kill succeeded. -/
theorem C9_stop_result_discards_kill_outcome (force : Bool) (e : SupEnv) (s : SupState) :
    (SupervisorInner.stop force e s).1 = Except.ok () ∧
    (∀ f : Nat → Bool,
      (SupervisorInner.stop force { e with killResult := f } s).1 = Except.ok () ∧
      (SupervisorInner.stop force { e with killResult := f } s).2.1 =
        (SupervisorInner.stop force e s).2.1) ∧
    (SupervisorInner.stop force e s).2.1.spawned_child_pid = none ∧
    (SupervisorInner.stop force e s).2.1.adopted_pid = none ∧
    (SupervisorInner.stop force e s).2.1.status =
      { running := false, pid := none, authenticated := false } :=
  ⟨rfl, fun _ => ⟨rfl, rfl⟩, rfl, rfl, rfl⟩

theorem regLoop_ok_bounds (f : Nat → Option Bool) :
    ∀ fuel k j, regLoop f k fuel = Except.ok j → k ≤ j ∧ j < k + fuel := by
  intro fuel
  induction fuel with
  | zero =>
    intro k j h
    exact absurd h (by simp [regLoop])
  | succ n ih =>
    intro k j h
    unfold regLoop at h
    cases hf : f k with
    | none => rw [hf] at h; cases h
    | some b =>
      rw [hf] at h
      cases b with
      | true =>
        cases h
        omega
      | false =>
        have := ih (k+1) j h
        omega

/-- C8: when the double-fork spawn succeeds and the settle-delay liveness
check passes, the outcome of the bounded bus-registration poll (30
attempts) is non-fatal: `start_fresh` returns the spawned pid as success,
with the tracked state and published status fixed independently of the
registration outcome. -/
theorem C8_registration_timeout_nonfatal (e : SupEnv) (s : SupState) (pid : Nat)
    (hgate : (!e.binaryExists && e.binaryPath != "spotifyd") = false)
    (hspawn : e.spawnResult = Except.ok pid)
    (hsettle : e.settleAlive = true) :
    (SupervisorInner.start_fresh e s).1 = Except.ok pid ∧
    (SupervisorInner.start_fresh e s).2.1 =
      publishStatus { s with spawned_child_pid := some pid, adopted_pid := none }
        { running := true, pid := some pid, authenticated := true } ∧
    (∀ r : RegEnv,
      (SupervisorInner.start_fresh { e with reg := r } s).1 =
        (SupervisorInner.start_fresh e s).1 ∧
      (SupervisorInner.start_fresh { e with reg := r } s).2.1 =
        (SupervisorInner.start_fresh e s).2.1) ∧
    (∀ k, wait_for_dbus_registration e.reg = Except.ok k → 1 ≤ k ∧ k ≤ 30) := by
  have hmain : ∀ r : RegEnv,
      (SupervisorInner.start_fresh { e with reg := r } s).1 = Except.ok pid ∧
      (SupervisorInner.start_fresh { e with reg := r } s).2.1 =
        publishStatus { s with spawned_child_pid := some pid, adopted_pid := none }
          { running := true, pid := some pid, authenticated := true } := by
    intro r
    unfold SupervisorInner.start_fresh
    simp [hgate, hspawn, hsettle]
  have he : (SupervisorInner.start_fresh e s).1 = Except.ok pid ∧
      (SupervisorInner.start_fresh e s).2.1 =
        publishStatus { s with spawned_child_pid := some pid, adopted_pid := none }
          { running := true, pid := some pid, authenticated := true } := by
    unfold SupervisorInner.start_fresh
    simp [hgate, hspawn, hsettle]
  refine ⟨he.1, he.2,
    fun r => ⟨(hmain r).1.trans he.1.symm, (hmain r).2.trans he.2.symm⟩, ?_⟩
  intro k hk
  unfold wait_for_dbus_registration at hk
  by_cases hs : e.reg.sessionOk
  · rw [if_pos hs] at hk
    have := regLoop_ok_bounds e.reg.attempt 30 1 k hk
    omega
  · rw [if_neg hs] at hk
    cases hk

theorem C8_witness :
    (SupervisorInner.start_fresh envSpawn ssEmpty).1 = Except.ok 99 ∧
    (SupervisorInner.start_fresh { envSpawn with reg := regAlways } ssEmpty).2.1 =
      (SupervisorInner.start_fresh envSpawn ssEmpty).2.1 := by
  have h := C8_registration_timeout_nonfatal envSpawn ssEmpty 99 rfl rfl rfl
  exact ⟨h.1, (h.2.2.1 regAlways).2⟩

theorem gracePoll_some (pid : Nat) (f : Nat → Bool) :
    ∀ fuel k j, (gracePoll pid f k fuel).1 = some j →
      f j = false ∧ k ≤ j ∧ j < k + fuel := by
  intro fuel
  induction fuel with
  | zero => intro k j h; simp [gracePoll] at h
  | succ n ih =>
    intro k j h
    unfold gracePoll at h
    by_cases ha : f k = true
    · simp [ha] at h
      have := ih (k+1) j h
      exact ⟨this.1, by omega, by omega⟩
    · simp [ha] at h
      subst h
      exact ⟨by simpa using ha, le_refl _, by omega⟩

theorem gracePoll_none_of_alive (pid : Nat) (f : Nat → Bool) :
    ∀ fuel k, (∀ j, k ≤ j → j < k + fuel → f j = true) →
      (gracePoll pid f k fuel).1 = none := by
  intro fuel
  induction fuel with
  | zero => intro k _; rfl
  | succ n ih =>
    intro k h
    unfold gracePoll
    have hk : f k = true := h k (le_refl _) (by omega)
    simp [hk]
    exact ih (k+1) fun j h1 h2 => h j (by omega) (by omega)

theorem gracePoll_checks (pid : Nat) (f : Nat → Bool) :
    ∀ fuel k c, c ∈ (gracePoll pid f k fuel).2 →
      ∃ j, k ≤ j ∧ j < k + fuel ∧ c = KEff.check pid (100 * (j+1)) (f j) := by
  intro fuel
  induction fuel with
  | zero => intro k c h; simp [gracePoll] at h
  | succ n ih =>
    intro k c h
    unfold gracePoll at h
    by_cases ha : f k = true
    · simp [ha] at h
      rcases h with h | h
      · exact ⟨k, le_refl _, by omega, by rw [h, ha]⟩
      · obtain ⟨j, h1, h2, h3⟩ := ih (k+1) c h
        exact ⟨j, by omega, by omega, h3⟩
    · simp [ha] at h
      refine ⟨k, le_refl _, by omega, ?_⟩
      rw [h]
      simp [eq_false_of_ne_true ha]

/-- C7: `kill_pid` sends the graceful terminate first; polls liveness at
fixed 100 ms intervals within the 2-second budget; a process alive through
the whole grace window receives the forceful kill with one re-check after a
short delay; and it reports success only when a liveness check confirmed
the process gone. -/
theorem C7_kill_pid_escalation (pid : Nat) (e : KillEnv) :
    ((kill_pid pid e).1 = true → ∃ k, k ≤ 20 ∧ e.aliveAt k = false) ∧
    ((kill_pid pid e).2.head? = some (KEff.sigterm pid)) ∧
    (e.sigtermOk = true → (∀ k, k < 20 → e.aliveAt k = true) →
      KEff.sigkill pid ∈ (kill_pid pid e).2) ∧
    (e.sigtermOk = true → (∀ k, k < 20 → e.aliveAt k = true) → e.sigkillOk = true →
      (kill_pid pid e).1 = !(e.aliveAt 20)) ∧
    (∀ q t a, KEff.check q t a ∈ (kill_pid pid e).2 →
      100 ≤ t ∧ t ≤ 2100 ∧ t % 100 = 0) := by
  refine ⟨?_, ?_, ?_, ?_, ?_⟩
  · intro hres
    unfold kill_pid at hres
    by_cases ht : e.sigtermOk
    · rw [if_pos ht] at hres
      cases hg : (gracePoll pid e.aliveAt 0 20).1 with
      | some j =>
        have := gracePoll_some pid e.aliveAt 20 0 j hg
        exact ⟨j, by omega, this.1⟩
      | none =>
        simp [hg] at hres
        by_cases hk : e.sigkillOk
        · simp [hk] at hres
          exact ⟨20, le_refl 20, by simpa using hres⟩
        · simp [hk] at hres
    · rw [if_neg ht] at hres
      cases hres
  · unfold kill_pid
    by_cases ht : e.sigtermOk
    · rw [if_pos ht]
      cases hg : (gracePoll pid e.aliveAt 0 20).1 with
      | some j => simp [hg]
      | none =>
        simp [hg]
        by_cases hk : e.sigkillOk <;> simp [hk]
    · rw [if_neg ht]
      rfl
  · intro ht hall
    have hg : (gracePoll pid e.aliveAt 0 20).1 = none :=
      gracePoll_none_of_alive pid e.aliveAt 20 0 fun j _ hj => hall j (by omega)
    unfold kill_pid
    rw [if_pos ht]
    simp [hg]
    by_cases hk : e.sigkillOk <;> simp [hk]
  · intro ht hall hk
    have hg : (gracePoll pid e.aliveAt 0 20).1 = none :=
      gracePoll_none_of_alive pid e.aliveAt 20 0 fun j _ hj => hall j (by omega)
    unfold kill_pid
    rw [if_pos ht]
    simp [hg, hk]
  · intro q t a hmem
    unfold kill_pid at hmem
    by_cases ht : e.sigtermOk
    · rw [if_pos ht] at hmem
      cases hg : (gracePoll pid e.aliveAt 0 20).1 with
      | some j =>
        simp [hg] at hmem
        obtain ⟨j, _, hj2, hc⟩ := gracePoll_checks pid e.aliveAt 20 0 _ hmem
        injection hc with h1 h2 h3
        omega
      | none =>
        simp [hg] at hmem
        by_cases hk : e.sigkillOk
        · simp [hk] at hmem
          rcases hmem with hmem | hmem
          · obtain ⟨j, _, hj2, hc⟩ := gracePoll_checks pid e.aliveAt 20 0 _ hmem
            injection hc with h1 h2 h3
            omega
          · obtain ⟨h1, h2⟩ := hmem
            omega
        · simp [hk] at hmem
          obtain ⟨j, _, hj2, hc⟩ := gracePoll_checks pid e.aliveAt 20 0 _ hmem
          injection hc with h1 h2 h3
          omega
    · rw [if_neg ht] at hmem
      simp at hmem

theorem C7_witness :
    (∃ k, k ≤ 20 ∧ killEnvEscalate.aliveAt k = false) ∧
    KEff.sigkill 5 ∈ (kill_pid 5 killEnvEscalate).2 ∧
    (kill_pid 5 killEnvEscalate).1 = !(killEnvEscalate.aliveAt 20) := by
  have h := C7_kill_pid_escalation 5 killEnvEscalate
  exact ⟨h.1 (by decide), h.2.2.1 rfl (by decide), h.2.2.2.1 rfl (by decide) rfl⟩

/-- C6: a metadata map with no title attribute parses to no track; the map
with title "Song A", artist list ["Artist B"] and length 3 000 000 µs
parses to that title and first artist with album/track-id defaulted empty
and no art URL, and a refresh over it yields `duration_ms = 3000`; the
artist defaults to empty when the list attribute is missing or empty, and
the duration defaults to 0 when the length attribute is absent. -/
theorem C6_metadata_parsing :
    (∀ m : Metadata, m.lookup "xesam:title" = none → parse_metadata m = none) ∧
    parse_metadata songMeta =
      some { title := "Song A", artist := "Artist B", album := ""
             art_url := none, uri := "" } ∧
    extract_duration songMeta = some 3000000 ∧
    (∀ r : PlayerReads, r.metadata = some songMeta →
      (refresh_state r).duration_ms = 3000 ∧
      (refresh_state r).track =
        some { title := "Song A", artist := "Artist B", album := ""
               art_url := none, uri := "" }) ∧
    (∀ (m : Metadata) (t : String),
      m.lookup "xesam:title" = some (MetaValue.str t) →
      (m.lookup "xesam:artist" = none ∨
        m.lookup "xesam:artist" = some (MetaValue.arr [])) →
      (parse_metadata m).map TrackInfo.artist = some "") ∧
    (∀ (r : PlayerReads) (m : Metadata), r.metadata = some m →
      m.lookup "mpris:length" = none → (refresh_state r).duration_ms = 0) := by
  refine ⟨?_, by decide, by decide, ?_, ?_, ?_⟩
  · intro m h
    simp [parse_metadata, h]
  · intro r hr
    constructor <;> simp [refresh_state, hr] <;> decide
  · intro m t ht har
    rcases har with h | h <;> simp [parse_metadata, ht, h, MetaValue.asStr, MetaValue.asArr]
  · intro r m hr hlen
    simp [refresh_state, hr, extract_duration, hlen]

theorem C6_witness :
    parse_metadata [] = none ∧
    (refresh_state { allReadsFail with metadata := some songMeta }).duration_ms = 3000 ∧
    (parse_metadata [("xesam:title", MetaValue.str "T")]).map TrackInfo.artist =
      some "" ∧
    (refresh_state { allReadsFail with metadata := some [] }).duration_ms = 0 := by
  refine ⟨C6_metadata_parsing.1 [] rfl,
    (C6_metadata_parsing.2.2.2.1 { allReadsFail with metadata := some songMeta } rfl).1,
    C6_metadata_parsing.2.2.2.2.1 [("xesam:title", MetaValue.str "T")] "T" rfl (Or.inl rfl),
    C6_metadata_parsing.2.2.2.2.2 { allReadsFail with metadata := some [] } [] rfl rfl⟩

/-- C10: in `refresh_state` a failed read of the volume property
substitutes 1, unlike the 0 zero-default of a freshly constructed
snapshot, while failed reads of the other five properties substitute
empty/false/0; so a full refresh against an unresponsive player differs
from the construction-time snapshot exactly in the volume. -/
theorem C10_volume_default_asymmetry :
    (∀ r : PlayerReads, r.volume = none → (refresh_state r).volume = 1) ∧
    refresh_state allReadsFail =
      { is_playing := false, position_ms := 0, duration_ms := 0, volume := 1
        shuffle := false, «repeat» := RepeatMode.none, track := none } ∧
    PlaybackState.zero.volume = 0 ∧
    (refresh_state allReadsFail).volume ≠ PlaybackState.zero.volume := by
  refine ⟨?_, by decide, by decide, by decide⟩
  intro r h
  simp [refresh_state, h]

theorem C10_witness : (refresh_state allReadsFail).volume = 1 :=
  C10_volume_default_asymmetry.1 allReadsFail rfl

/-- C1 as stated is false: `next` on a connected controller succeeds (the
protocol call is issued and returns `Ok`) yet publishes nothing on the
broadcast channel and leaves the cached snapshot untouched, so a
subscriber registered beforehand observes no snapshot for this successful
state-mutating command. -/
theorem C1_counterexample :
    (ControllerInner.next csConnected true).1 = Except.ok () ∧
    (ControllerInner.next csConnected true).2.published = [] ∧
    (ControllerInner.next csConnected true).2 = csConnected :=
  ⟨rfl, rfl, rfl⟩

/-- C1 amended: every command fails with the not-connected error when no
connection is established; on protocol success `play_pause`, `set_volume`,
`set_shuffle` and `set_repeat` update the cached snapshot and publish
exactly one fresh snapshot on the broadcast channel, while `next`,
`previous` and `seek` only issue the protocol call, publishing nothing and
leaving the controller state unchanged. -/
theorem C1_amended_command_publication (cs : ControllerState) (callOk : Bool)
    (statusAfter : Option String) (st : String) (v : ℚ) (b : Bool)
    (rm : RepeatMode) (off : Int) :
    (cs.connected = false →
      ControllerInner.play_pause cs callOk statusAfter =
        (Except.error MprisError.notConnected, cs) ∧
      ControllerInner.next cs callOk = (Except.error MprisError.notConnected, cs) ∧
      ControllerInner.previous cs callOk = (Except.error MprisError.notConnected, cs) ∧
      ControllerInner.seek cs off callOk =
        ((Except.error MprisError.notConnected, cs), none) ∧
      ControllerInner.set_volume cs v callOk =
        (Except.error MprisError.notConnected, cs) ∧
      ControllerInner.set_shuffle cs b callOk =
        (Except.error MprisError.notConnected, cs) ∧
      ControllerInner.set_repeat cs rm callOk =
        (Except.error MprisError.notConnected, cs)) ∧
    (cs.connected = true →
      (ControllerInner.play_pause cs true (some st) =
        (Except.ok (st == "Playing"),
          publishSnapshot cs { cs.state with is_playing := st == "Playing" }) ∧
       ControllerInner.set_volume cs v true =
        (Except.ok (), publishSnapshot cs { cs.state with volume := v }) ∧
       ControllerInner.set_shuffle cs b true =
        (Except.ok (), publishSnapshot cs { cs.state with shuffle := b }) ∧
       ControllerInner.set_repeat cs rm true =
        (Except.ok (), publishSnapshot cs { cs.state with «repeat» := rm })) ∧
      (ControllerInner.next cs true = (Except.ok (), cs) ∧
       ControllerInner.previous cs true = (Except.ok (), cs) ∧
       ControllerInner.seek cs off true = ((Except.ok (), cs), some (off * 1000)))) ∧
    (∀ st' : PlaybackState,
      (publishSnapshot cs st').published = cs.published ++ [st'] ∧
      (publishSnapshot cs st').state = st') := by
  refine ⟨?_, ?_, fun st' => ⟨rfl, rfl⟩⟩
  · intro h
    refine ⟨?_, ?_, ?_, ?_, ?_, ?_, ?_⟩ <;>
      simp [ControllerInner.play_pause, ControllerInner.next,
        ControllerInner.previous, ControllerInner.seek,
        ControllerInner.set_volume, ControllerInner.set_shuffle,
        ControllerInner.set_repeat, h]
  · intro h
    refine ⟨⟨?_, ?_, ?_, ?_⟩, ?_, ?_, ?_⟩ <;>
      simp [ControllerInner.play_pause, ControllerInner.next,
        ControllerInner.previous, ControllerInner.seek,
        ControllerInner.set_volume, ControllerInner.set_shuffle,
        ControllerInner.set_repeat, h]

theorem C1_witness :
    ControllerInner.next csDisconnected true =
      (Except.error MprisError.notConnected, csDisconnected) ∧
    ControllerInner.set_shuffle csConnected true true =
      (Except.ok (),
        publishSnapshot csConnected { csConnected.state with shuffle := true }) ∧
    ControllerInner.previous csConnected true = (Except.ok (), csConnected) := by
  have h1 := C1_amended_command_publication csDisconnected true none "" 0 true
    RepeatMode.none 0
  have h2 := C1_amended_command_publication csConnected true none "" 0 true
    RepeatMode.none 0
  exact ⟨(h1.1 rfl).2.1, (h2.2.1 rfl).1.2.2.1, (h2.2.1 rfl).2.2.1⟩

/-- C4 as stated is false: `discover_player` also binds a registered name
that carries the desktop-client prefix "org.mpris.MediaPlayer2.spotify"
even though it does not match the supervised daemon's configured
well-known prefix "org.mpris.MediaPlayer2.spotifyd" — a bus list holding
only that name is bound by the controller while every supervisor-side
check for the daemon prefix rejects it. -/
theorem C4_counterexample :
    discover_player ["org.mpris.MediaPlayer2.spotify"] =
      Except.ok "org.mpris.MediaPlayer2.spotify" ∧
    str_starts_with "org.mpris.MediaPlayer2.spotify" spotifydWellKnown = false ∧
    check_dbus_responsive ["org.mpris.MediaPlayer2.spotify"] = false :=
  ⟨rfl, by decide, by decide⟩

/-- C4 amended: `discover_player` binds only to a registered bus name
starting with "org.mpris.MediaPlayer2.spotifyd" or
"org.mpris.MediaPlayer2.spotify" (equivalently the latter prefix, which
subsumes the former), refusing every other protocol-compliant player; when
no registered name matches, the attempt fails with the player-not-found
error. -/
theorem C4_amended_discovery (names : List String) :
    (∀ n, discover_player names = Except.ok n →
      n ∈ names ∧
      (str_starts_with n spotifydWellKnown || str_starts_with n spotifyWellKnown)
        = true) ∧
    ((∀ m ∈ names,
        (str_starts_with m spotifydWellKnown || str_starts_with m spotifyWellKnown)
          = false) →
      discover_player names = Except.error MprisError.playerNotFound) ∧
    (∀ m : String, str_starts_with m spotifydWellKnown = true →
      str_starts_with m spotifyWellKnown = true) := by
  refine ⟨?_, ?_, ?_⟩
  · intro n h
    unfold discover_player at h
    cases hf : names.find? (fun n =>
        str_starts_with n spotifydWellKnown || str_starts_with n spotifyWellKnown) with
    | none => rw [hf] at h; cases h
    | some m =>
      rw [hf] at h
      cases h
      have h1 := List.mem_of_find?_eq_some hf
      have h2 := List.find?_some hf
      exact ⟨h1, by simpa using h2⟩
  · intro h
    unfold discover_player
    rw [List.find?_eq_none.mpr fun m hm => by simp [h m hm]]
  · intro m h
    have hd : spotifydWellKnown.data.IsPrefix m.data :=
      (List.isPrefixOf_iff_prefix.mp h)
    have hy : spotifyWellKnown.data.IsPrefix spotifydWellKnown.data := by decide
    exact List.isPrefixOf_iff_prefix.mpr (hy.trans hd)

theorem C4_witness :
    ("org.mpris.MediaPlayer2.spotifyd" ∈
        (["org.mpris.MediaPlayer2.spotifyd"] : List String) ∧
      (str_starts_with "org.mpris.MediaPlayer2.spotifyd" spotifydWellKnown ||
        str_starts_with "org.mpris.MediaPlayer2.spotifyd" spotifyWellKnown)
        = true) ∧
    discover_player ["org.mpris.MediaPlayer2.vlc"] =
      Except.error MprisError.playerNotFound :=
  ⟨(C4_amended_discovery ["org.mpris.MediaPlayer2.spotifyd"]).1
      "org.mpris.MediaPlayer2.spotifyd" rfl,
    (C4_amended_discovery ["org.mpris.MediaPlayer2.vlc"]).2.1 (by decide)⟩

end OpenSpot
